import Mathlib

/-!
Shallow embedding of the client-side authentication hook
`src/hooks/auth/useAuth.ts` of the movie-web-lang repository.

The hook orchestrates four operations - `login`, `register`, `logout`,
`restore` - against a remote account service and a session-store
collaborator (`useAuthData`: `login`/`logout`/`syncData`) and an auth
store (`useAuthStore`) holding the current `account`.

Modelling choices:
* Cryptographic values are symbolic terms of an inductive `Data` type
  (Dolev-Yao style): `keysFromMnemonic m` yields the symbolic public
  key, private key and seed for mnemonic `m`; signing and encryption
  build symbolic terms.  The crypto module itself
  (`@/backend/accounts/crypto`) is not part of the repository sources,
  so its outputs are modelled from the spec as opaque derived terms.
* Every remote-service call and every collaborator callback is recorded
  as an `Event`; an operation returns `(Except Err Unit) × List Event`.
  An event is appended as soon as the corresponding call is made, even
  when that call itself fails.
* The auth-store state is not mutated by the hook directly: it changes
  only through the collaborator callbacks.  `applyEvent` folds the
  callback events into the store, mirroring the session-store
  collaborator, which is modelled from the spec: `onLogin` installs the
  session, `onLogout` clears it, `onRestore` leaves it unchanged.
* The remote service and the failure behaviour of the crypto primitives
  are an environment `Env` of oracles returning `Except Err`.
-/

namespace MovieWebAuth

/-- Error taxonomy from the spec (§7); `networkError` stands for an
arbitrary transport-level failure of a remote call. -/
inductive Err where
  | invalidMnemonic
  | signingError
  | encryptionError
  | networkError (code : Nat)
deriving DecidableEq, Repr

/-- Profile payload carried by `RegistrationData.userData.profile`. -/
structure Profile where
  colorA : String
  colorB : String
  icon : String
deriving DecidableEq, Repr

/-- Symbolic data values that cross the interfaces of the hook.
Crypto outputs are opaque constructor terms. -/
inductive Data where
  | rawMnemonic (m : String)
  | publicKey (m : String)
  | privateKey (m : String)
  | seed (m : String)
  | b64url (d : Data)
  | b64 (d : Data)
  | challengeCode (c : String)
  | sig (key : Data) (code : Data)
  | enc (plain : Data) (key : Data)
  | token (t : String)
  | sessionId (s : String)
  | profile (p : Profile)
  | str (s : String)
deriving DecidableEq, Repr

/-- The user record returned by `getUser` / embedded in the register
response. -/
structure UserRecord where
  id : String
  profile : Profile
deriving DecidableEq, Repr

/-- Result of `loginAccount`: bearer token and session id. -/
structure SessionResult where
  token : String
  sessionId : String
deriving DecidableEq, Repr

/-- Result of `registerAccount`: bearer token, session id and the newly
created user record embedded directly in the response. -/
structure RegisterResult where
  token : String
  sessionId : String
  user : UserRecord
deriving DecidableEq, Repr

/-- The account held by the auth store (`useAuthStore`), modelled from
the spec (§3 Session): bearer token, session identifier, account
identifier, profile, and the base64-encoded seed retained client-side. -/
structure Account where
  token : String
  sessionId : String
  userId : String
  profile : Profile
  seedB64 : Data
deriving DecidableEq, Repr

/-- The auth store: `account` is `none` iff no session is established. -/
structure AuthStore where
  account : Option Account
deriving DecidableEq, Repr

/-- Key material derived from a mnemonic. -/
structure Keys where
  publicKey : Data
  privateKey : Data
  seed : Data
deriving DecidableEq, Repr

/-- Events: one per remote-service call (arguments as transmitted, per
the external-interface table of the spec §6) and one per collaborator
callback. -/
inductive Event where
  | netGetLoginChallenge (publicKey : Data)
  | netLoginAccount (code signature publicKey device : Data)
  | netGetRegisterChallenge
  | netRegisterAccount (code signature publicKey device : Data) (profile : Profile)
  | netGetUser (token : Data)
  | netGetBookmarks (token sessionId : Data)
  | netGetProgress (token sessionId : Data)
  | netRemoveSession (token sessionId : Data)
  | cbLogin (result : SessionResult) (user : UserRecord) (seedB64 : Data)
  | cbLogout
  | cbSync (user : UserRecord) (progress : String) (bookmarks : String)
deriving DecidableEq, Repr

/-- Is the event a remote-service (network) call? -/
def Event.isNet : Event → Bool
  | .cbLogin _ _ _ => false
  | .cbLogout => false
  | .cbSync _ _ _ => false
  | _ => true

/-- The data values passed as arguments to the remote service by a
network event (collaborator callbacks transmit nothing over the
network). -/
def Event.transmitted : Event → List Data
  | .netGetLoginChallenge pk => [pk]
  | .netLoginAccount c s pk d => [c, s, pk, d]
  | .netGetRegisterChallenge => []
  | .netRegisterAccount c s pk d p => [c, s, pk, d, Data.profile p]
  | .netGetUser t => [t]
  | .netGetBookmarks t s => [t, s]
  | .netGetProgress t s => [t, s]
  | .netRemoveSession t s => [t, s]
  | .cbLogin _ _ _ => []
  | .cbLogout => []
  | .cbSync _ _ _ => []

/-- Environment of oracles: validity of mnemonics, remote-service
responses, and failure behaviour of signing/encryption. -/
structure Env where
  mnemonicValid : String → Bool
  getLoginChallenge : Data → Except Err String
  signWorks : Data → String → Except Err Unit
  encryptWorks : String → Data → Except Err Unit
  loginAccount : Data → Data → Data → Data → Except Err SessionResult
  getRegisterChallenge : Except Err String
  registerAccount : Data → Data → Data → Data → Profile → Except Err RegisterResult
  getUser : Data → Except Err UserRecord
  getBookmarks : Data → Data → Except Err String
  getProgress : Data → Data → Except Err String
  removeSession : Data → Data → Except Err Unit

/-- `keysFromMnemonic` (crypto module, modelled from the spec §4.1):
deterministic derivation, fails with `InvalidMnemonic` on an invalid
phrase. -/
def keysFromMnemonic (env : Env) (m : String) : Except Err Keys :=
  if env.mnemonicValid m then
    .ok ⟨Data.publicKey m, Data.privateKey m, Data.seed m⟩
  else
    .error .invalidMnemonic

/-- `bytesToBase64Url` (crypto module, modelled from the spec):
symbolic base64url encoding. -/
def bytesToBase64Url (d : Data) : Data := Data.b64url d

/-- `bytesToBase64` (crypto module, modelled from the spec): symbolic
base64 encoding. -/
def bytesToBase64 (d : Data) : Data := Data.b64 d

/-- `signChallenge` (crypto module, modelled from the spec §4.2): may
fail per the environment, otherwise produces the symbolic signature of
the challenge under the private key. -/
def signChallenge (env : Env) (keys : Keys) (challenge : String) :
    Except Err Data :=
  match env.signWorks keys.privateKey challenge with
  | .error e => .error e
  | .ok _ => .ok (Data.sig keys.privateKey (Data.challengeCode challenge))

/-- `encryptData` (crypto module, modelled from the spec §4.3): may
fail per the environment, otherwise produces the symbolic ciphertext of
the plaintext under the seed. -/
def encryptData (env : Env) (plain : String) (key : Data) :
    Except Err Data :=
  match env.encryptWorks plain key with
  | .error e => .error e
  | .ok _ => .ok (Data.enc (Data.str plain) key)

/-- `LoginData` of `useAuth.ts` (mnemonic and `userData.device`). -/
structure LoginData where
  mnemonic : String
  device : String
deriving DecidableEq, Repr

/-- `RegistrationData` of `useAuth.ts` (mnemonic, `userData.device`,
`userData.profile`). -/
structure RegistrationData where
  mnemonic : String
  device : String
  profile : Profile
deriving DecidableEq, Repr

/-- The `login` callback of `useAuth.ts` (lines 51-74): derive keys,
request a login challenge keyed by the base64url public key, sign the
challenge, encrypt the device string under the seed, submit, fetch the
user with the returned token, and emit to the session-store
collaborator.  Each failure propagates and aborts the rest. -/
def login (env : Env) (loginData : LoginData) :
    Except Err Unit × List Event :=
  match keysFromMnemonic env loginData.mnemonic with
  | .error e => (.error e, [])
  | .ok keys =>
    let publicKeyBase64Url := bytesToBase64Url keys.publicKey
    let ev1 := Event.netGetLoginChallenge publicKeyBase64Url
    match env.getLoginChallenge publicKeyBase64Url with
    | .error e => (.error e, [ev1])
    | .ok challenge =>
      match signChallenge env keys challenge with
      | .error e => (.error e, [ev1])
      | .ok signature =>
        match encryptData env loginData.device keys.seed with
        | .error e => (.error e, [ev1])
        | .ok device =>
          let code := Data.challengeCode challenge
          let ev2 := Event.netLoginAccount code signature publicKeyBase64Url device
          match env.loginAccount code signature publicKeyBase64Url device with
          | .error e => (.error e, [ev1, ev2])
          | .ok loginResult =>
            let ev3 := Event.netGetUser (Data.token loginResult.token)
            match env.getUser (Data.token loginResult.token) with
            | .error e => (.error e, [ev1, ev2, ev3])
            | .ok user =>
              let seedBase64 := bytesToBase64 keys.seed
              (.ok (), [ev1, ev2, ev3, Event.cbLogin loginResult user seedBase64])

/-- The `register` callback of `useAuth.ts` (lines 90-112): request the
registration challenge (no public-key binding) FIRST, then derive keys,
sign, encrypt the device string, submit with the profile attached, and
emit the embedded user record to the collaborator (no user fetch). -/
def register (env : Env) (registerData : RegistrationData) :
    Except Err Unit × List Event :=
  let ev1 := Event.netGetRegisterChallenge
  match env.getRegisterChallenge with
  | .error e => (.error e, [ev1])
  | .ok challenge =>
    match keysFromMnemonic env registerData.mnemonic with
    | .error e => (.error e, [ev1])
    | .ok keys =>
      match signChallenge env keys challenge with
      | .error e => (.error e, [ev1])
      | .ok signature =>
        match encryptData env registerData.device keys.seed with
        | .error e => (.error e, [ev1])
        | .ok device =>
          let code := Data.challengeCode challenge
          let publicKeyBase64Url := bytesToBase64Url keys.publicKey
          let ev2 := Event.netRegisterAccount code signature publicKeyBase64Url
            device registerData.profile
          match env.registerAccount code signature publicKeyBase64Url device
              registerData.profile with
          | .error e => (.error e, [ev1, ev2])
          | .ok registerResult =>
            (.ok (),
             [ev1, ev2,
              Event.cbLogin ⟨registerResult.token, registerResult.sessionId⟩
                registerResult.user (bytesToBase64 keys.seed)])

/-- The `logout` callback of `useAuth.ts` (lines 76-88): no-op without
an account; otherwise attempt the server-side revoke, swallow its
outcome (try/catch with empty handler), and clear local state via the
collaborator. -/
def logout (env : Env) (st : AuthStore) : Except Err Unit × List Event :=
  match st.account with
  | none => (.ok (), [])
  | some a =>
    let ev := Event.netRemoveSession (Data.token a.token) (Data.sessionId a.sessionId)
    match env.removeSession (Data.token a.token) (Data.sessionId a.sessionId) with
    | .error _ => (.ok (), [ev, Event.cbLogout])
    | .ok _ => (.ok (), [ev, Event.cbLogout])

/-- The `restore` callback of `useAuth.ts` (lines 114-125): no-op
without an account; otherwise fetch user, bookmarks and progress with
the stored credentials and hand all three to `syncData`.  Any fetch
failure propagates.  (The bookmark/progress calls receive the session
credentials - token and session id - per the spec §6 interface table;
the backend wrappers themselves are not in the repository sources.) -/
def restore (env : Env) (st : AuthStore) : Except Err Unit × List Event :=
  match st.account with
  | none => (.ok (), [])
  | some a =>
    let tok := Data.token a.token
    let sid := Data.sessionId a.sessionId
    let ev1 := Event.netGetUser tok
    match env.getUser tok with
    | .error e => (.error e, [ev1])
    | .ok user =>
      let ev2 := Event.netGetBookmarks tok sid
      match env.getBookmarks tok sid with
      | .error e => (.error e, [ev1, ev2])
      | .ok bookmarks =>
        let ev3 := Event.netGetProgress tok sid
        match env.getProgress tok sid with
        | .error e => (.error e, [ev1, ev2, ev3])
        | .ok progress =>
          (.ok (), [ev1, ev2, ev3, Event.cbSync user progress bookmarks])

/-- Session-store collaborator, modelled from the spec (§6): `onLogin`
installs the session built from the result, user and encoded seed;
`onLogout` clears it; network events and `onRestore` leave the store
unchanged. -/
def applyEvent (st : AuthStore) : Event → AuthStore
  | .cbLogin r u seedB64 => ⟨some ⟨r.token, r.sessionId, u.id, u.profile, seedB64⟩⟩
  | .cbLogout => ⟨none⟩
  | _ => st

/-- The auth-store state after a trace of events. -/
def runEvents (st : AuthStore) (tr : List Event) : AuthStore :=
  tr.foldl applyEvent st

/-- `loggedIn` selector of `useAuth.ts` (line 43): `!!account`. -/
def AuthStore.loggedIn (st : AuthStore) : Bool :=
  st.account.isSome

/-- `profile` selector of `useAuth.ts` (line 42): `account?.profile`. -/
def AuthStore.profile (st : AuthStore) : Option Profile :=
  st.account.map Account.profile

/-- Is the symbolic datum one of the secrets that must never be
transmitted: the raw mnemonic, the derived private key, or the raw
symmetric seed? -/
def isSecret : Data → Bool
  | .rawMnemonic _ => true
  | .privateKey _ => true
  | .seed _ => true
  | _ => false

/-- The kinds of data the code actually transmits: base64url public
keys, signatures, encrypted payloads, profiles, tokens, session
identifiers, and challenge codes. -/
def transmittedAllowed : Data → Bool
  | .b64url (.publicKey _) => true
  | .sig _ _ => true
  | .enc _ _ => true
  | .profile _ => true
  | .token _ => true
  | .sessionId _ => true
  | .challengeCode _ => true
  | _ => false

/-- The allow-list exactly as the claim enumerates it: base64url public
key, signature, encrypted device payload, profile, tokens and session
identifiers - challenge codes are NOT in this list. -/
def claimAllowed : Data → Bool
  | .challengeCode _ => false
  | d => transmittedAllowed d

/-- A transmitted datum is good when it is not a secret and is of a
transmitted kind. -/
def goodData (d : Data) : Bool :=
  !isSecret d && transmittedAllowed d

/-- A sample profile for concrete runs. -/
def sampleProfile : Profile := ⟨"red", "blue", "cat"⟩

/-- A sample user record for concrete runs. -/
def sampleUser : UserRecord := ⟨"uid1", sampleProfile⟩

/-- Environment in which every oracle succeeds. -/
def envOK : Env where
  mnemonicValid := fun _ => true
  getLoginChallenge := fun _ => .ok "c1"
  signWorks := fun _ _ => .ok ()
  encryptWorks := fun _ _ => .ok ()
  loginAccount := fun _ _ _ _ => .ok ⟨"tok1", "sid1"⟩
  getRegisterChallenge := .ok "c2"
  registerAccount := fun _ _ _ _ _ => .ok ⟨"tok2", "sid2", sampleUser⟩
  getUser := fun _ => .ok sampleUser
  getBookmarks := fun _ _ => .ok "bookmarks"
  getProgress := fun _ _ => .ok "progress"
  removeSession := fun _ _ => .ok ()

/-- Environment in which every mnemonic is invalid (derivation fails)
but all network oracles succeed. -/
def envInvalidMnemonic : Env :=
  { envOK with mnemonicValid := fun _ => false }

/-- Environment in which the user fetch fails with a network error. -/
def envUserFetchFails : Env :=
  { envOK with getUser := fun _ => .error (.networkError 1) }

/-- Environment in which the server-side session revoke fails. -/
def envRevokeFails : Env :=
  { envOK with removeSession := fun _ _ => .error (.networkError 2) }

/-- A sample login input. -/
def sampleLoginData : LoginData := ⟨"alpha beta gamma", "my-device"⟩

/-- A sample registration input. -/
def sampleRegisterData : RegistrationData :=
  ⟨"alpha beta gamma", "my-device", sampleProfile⟩

/-- A sample established account. -/
def sampleAccount : Account :=
  ⟨"tok1", "sid1", "uid1", sampleProfile, Data.b64 (Data.seed "alpha beta gamma")⟩

/-- Exhaustive characterization of the outcomes of `login`: the result
and trace after failing at each successive step, or full success. -/
lemma login_shape (env : Env) (ld : LoginData) :
    login env ld = (.error Err.invalidMnemonic, []) ∨
    (∃ e, login env ld = (.error e,
      [Event.netGetLoginChallenge (Data.b64url (Data.publicKey ld.mnemonic))])) ∨
    (∃ e c, login env ld = (.error e,
      [Event.netGetLoginChallenge (Data.b64url (Data.publicKey ld.mnemonic)),
       Event.netLoginAccount (Data.challengeCode c)
         (Data.sig (Data.privateKey ld.mnemonic) (Data.challengeCode c))
         (Data.b64url (Data.publicKey ld.mnemonic))
         (Data.enc (Data.str ld.device) (Data.seed ld.mnemonic))])) ∨
    (∃ e c r, login env ld = (.error e,
      [Event.netGetLoginChallenge (Data.b64url (Data.publicKey ld.mnemonic)),
       Event.netLoginAccount (Data.challengeCode c)
         (Data.sig (Data.privateKey ld.mnemonic) (Data.challengeCode c))
         (Data.b64url (Data.publicKey ld.mnemonic))
         (Data.enc (Data.str ld.device) (Data.seed ld.mnemonic)),
       Event.netGetUser (Data.token (SessionResult.token r))])) ∨
    (∃ c r u, login env ld = (.ok (),
      [Event.netGetLoginChallenge (Data.b64url (Data.publicKey ld.mnemonic)),
       Event.netLoginAccount (Data.challengeCode c)
         (Data.sig (Data.privateKey ld.mnemonic) (Data.challengeCode c))
         (Data.b64url (Data.publicKey ld.mnemonic))
         (Data.enc (Data.str ld.device) (Data.seed ld.mnemonic)),
       Event.netGetUser (Data.token (SessionResult.token r)),
       Event.cbLogin r u (Data.b64 (Data.seed ld.mnemonic))])) := by
  cases hv : env.mnemonicValid ld.mnemonic with
  | false =>
    left
    simp [login, keysFromMnemonic, hv]
  | true =>
    simp only [login, keysFromMnemonic, bytesToBase64Url, bytesToBase64, hv, if_true]
    cases hc : env.getLoginChallenge (Data.b64url (Data.publicKey ld.mnemonic)) with
    | error e =>
      right; left
      exact ⟨e, rfl⟩
    | ok c =>
      simp only [signChallenge, encryptData]
      cases hs : env.signWorks (Data.privateKey ld.mnemonic) c with
      | error e =>
        right; left
        exact ⟨e, rfl⟩
      | ok _ =>
        dsimp only
        cases he : env.encryptWorks ld.device (Data.seed ld.mnemonic) with
        | error e =>
          right; left
          exact ⟨e, rfl⟩
        | ok _ =>
          dsimp only
          cases ha : env.loginAccount (Data.challengeCode c)
              (Data.sig (Data.privateKey ld.mnemonic) (Data.challengeCode c))
              (Data.b64url (Data.publicKey ld.mnemonic))
              (Data.enc (Data.str ld.device) (Data.seed ld.mnemonic)) with
          | error e =>
            right; right; left
            exact ⟨e, c, rfl⟩
          | ok r =>
            dsimp only
            cases hu : env.getUser (Data.token r.token) with
            | error e =>
              right; right; right; left
              exact ⟨e, c, r, rfl⟩
            | ok u =>
              right; right; right; right
              exact ⟨c, r, u, rfl⟩

/-- Exhaustive characterization of the outcomes of `register`: every
trace starts with the challenge request, and the submit event appears
only after derivation, signing and encryption all succeed. -/
lemma register_shape (env : Env) (rd : RegistrationData) :
    (∃ e, register env rd = (.error e, [Event.netGetRegisterChallenge])) ∨
    (∃ e c, register env rd = (.error e,
      [Event.netGetRegisterChallenge,
       Event.netRegisterAccount (Data.challengeCode c)
         (Data.sig (Data.privateKey rd.mnemonic) (Data.challengeCode c))
         (Data.b64url (Data.publicKey rd.mnemonic))
         (Data.enc (Data.str rd.device) (Data.seed rd.mnemonic)) rd.profile])) ∨
    (∃ c r, register env rd = (.ok (),
      [Event.netGetRegisterChallenge,
       Event.netRegisterAccount (Data.challengeCode c)
         (Data.sig (Data.privateKey rd.mnemonic) (Data.challengeCode c))
         (Data.b64url (Data.publicKey rd.mnemonic))
         (Data.enc (Data.str rd.device) (Data.seed rd.mnemonic)) rd.profile,
       Event.cbLogin ⟨RegisterResult.token r, RegisterResult.sessionId r⟩
         (RegisterResult.user r) (Data.b64 (Data.seed rd.mnemonic))])) := by
  simp only [register, keysFromMnemonic, bytesToBase64Url, bytesToBase64,
    signChallenge, encryptData]
  cases hrc : env.getRegisterChallenge with
  | error e =>
    left
    exact ⟨e, rfl⟩
  | ok c =>
    dsimp only
    cases hv : env.mnemonicValid rd.mnemonic with
    | false =>
      left
      exact ⟨Err.invalidMnemonic, by simp⟩
    | true =>
      simp only [if_true]
      cases hs : env.signWorks (Data.privateKey rd.mnemonic) c with
      | error e =>
        left
        exact ⟨e, rfl⟩
      | ok _ =>
        dsimp only
        cases he : env.encryptWorks rd.device (Data.seed rd.mnemonic) with
        | error e =>
          left
          exact ⟨e, rfl⟩
        | ok _ =>
          dsimp only
          cases ha : env.registerAccount (Data.challengeCode c)
              (Data.sig (Data.privateKey rd.mnemonic) (Data.challengeCode c))
              (Data.b64url (Data.publicKey rd.mnemonic))
              (Data.enc (Data.str rd.device) (Data.seed rd.mnemonic))
              rd.profile with
          | error e =>
            right; left
            exact ⟨e, c, rfl⟩
          | ok r =>
            right; right
            exact ⟨c, r, rfl⟩

/-- Exhaustive characterization of the outcomes of `restore` on an
established account: failure after each fetch, or full success ending
in the `syncData` callback. -/
lemma restore_shape (env : Env) (a : Account) :
    (∃ e, restore env ⟨some a⟩ = (.error e,
      [Event.netGetUser (Data.token a.token)])) ∨
    (∃ e, restore env ⟨some a⟩ = (.error e,
      [Event.netGetUser (Data.token a.token),
       Event.netGetBookmarks (Data.token a.token) (Data.sessionId a.sessionId)])) ∨
    (∃ e, restore env ⟨some a⟩ = (.error e,
      [Event.netGetUser (Data.token a.token),
       Event.netGetBookmarks (Data.token a.token) (Data.sessionId a.sessionId),
       Event.netGetProgress (Data.token a.token) (Data.sessionId a.sessionId)])) ∨
    (∃ u b p, restore env ⟨some a⟩ = (.ok (),
      [Event.netGetUser (Data.token a.token),
       Event.netGetBookmarks (Data.token a.token) (Data.sessionId a.sessionId),
       Event.netGetProgress (Data.token a.token) (Data.sessionId a.sessionId),
       Event.cbSync u p b])) := by
  simp only [restore]
  cases hu : env.getUser (Data.token a.token) with
  | error e =>
    left
    exact ⟨e, rfl⟩
  | ok u =>
    dsimp only
    cases hb : env.getBookmarks (Data.token a.token) (Data.sessionId a.sessionId) with
    | error e =>
      right; left
      exact ⟨e, rfl⟩
    | ok b =>
      dsimp only
      cases hp : env.getProgress (Data.token a.token) (Data.sessionId a.sessionId) with
      | error e =>
        right; right; left
        exact ⟨e, rfl⟩
      | ok p =>
        right; right; right
        exact ⟨u, b, p, rfl⟩

/-- Characterization of `logout`: no-op on an empty session, otherwise
revoke attempt followed by the local clear, independent of the revoke
outcome. -/
lemma logout_shape (env : Env) (st : AuthStore) :
    (st.account = none ∧ logout env st = (.ok (), [])) ∨
    (∃ a, st.account = some a ∧ logout env st = (.ok (),
      [Event.netRemoveSession (Data.token a.token) (Data.sessionId a.sessionId),
       Event.cbLogout])) := by
  obtain ⟨acc⟩ := st
  cases acc with
  | none => exact .inl ⟨rfl, rfl⟩
  | some a =>
    right
    refine ⟨a, rfl, ?_⟩
    cases h : env.removeSession (Data.token a.token) (Data.sessionId a.sessionId) <;>
      simp [logout, h]

/-- C6: calling `restore` when no session is established is a no-op:
it returns `ok` immediately, with no network fetch and no collaborator
callback (the trace is empty). -/
theorem restore_no_session_noop (env : Env) :
    restore env ⟨none⟩ = (.ok (), []) := rfl

/-- C10: in every auth-store state, `loggedIn` is true iff the stored
account is non-null, `profile` equals the account's profile field, and
hence `profile` is `none` whenever `loggedIn` is false. -/
theorem store_selectors_inv (st : AuthStore) :
    (st.loggedIn = true ↔ st.account ≠ none) ∧
    st.profile = st.account.map Account.profile ∧
    (st.loggedIn = false → st.profile = none) := by
  obtain ⟨acc⟩ := st
  cases acc <;> simp [AuthStore.loggedIn, AuthStore.profile]

/-- Witness for C10 at the empty store. -/
theorem store_selectors_inv_witness :
    (AuthStore.mk none).profile = none :=
  (store_selectors_inv ⟨none⟩).2.2 rfl

/-- C4: with a session, `logout` makes the revoke call and then clears
local state via the collaborator, with the same `ok` outcome for every
environment (a revoke failure is swallowed, never surfaced); without a
session it is a no-op with no revoke call. -/
theorem logout_clears_regardless (env env2 : Env) (st : AuthStore) :
    logout env st = logout env2 st ∧
    (∀ a, st.account = some a →
      logout env st = (.ok (),
        [Event.netRemoveSession (Data.token a.token) (Data.sessionId a.sessionId),
         Event.cbLogout]) ∧
      runEvents st (logout env st).2 = ⟨none⟩) ∧
    (st.account = none → logout env st = (.ok (), [])) := by
  obtain ⟨acc⟩ := st
  cases acc with
  | none =>
    refine ⟨rfl, ?_, fun _ => rfl⟩
    intro a ha
    simp at ha
  | some a =>
    have key : ∀ en : Env, logout en ⟨some a⟩ = (.ok (),
        [Event.netRemoveSession (Data.token a.token) (Data.sessionId a.sessionId),
         Event.cbLogout]) := by
      intro en
      cases h : en.removeSession (Data.token a.token) (Data.sessionId a.sessionId) <;>
        simp [logout, h]
    refine ⟨(key env).trans (key env2).symm, ?_, ?_⟩
    · intro a2 ha2
      obtain rfl : a2 = a := by simpa using ha2.symm
      refine ⟨key env, ?_⟩
      rw [key env]
      simp [runEvents, applyEvent]
    · intro h
      simp at h

/-- Witness for C4: revoke fails yet logout still clears the session,
and logout on the empty store is a no-op. -/
theorem logout_clears_regardless_witness :
    logout envRevokeFails ⟨some sampleAccount⟩ = (.ok (),
      [Event.netRemoveSession (Data.token "tok1") (Data.sessionId "sid1"),
       Event.cbLogout]) ∧
    runEvents ⟨some sampleAccount⟩
      (logout envRevokeFails ⟨some sampleAccount⟩).2 = ⟨none⟩ ∧
    logout envRevokeFails ⟨none⟩ = (.ok (), []) :=
  ⟨((logout_clears_regardless envRevokeFails envOK ⟨some sampleAccount⟩).2.1
      sampleAccount rfl).1,
   ((logout_clears_regardless envRevokeFails envOK ⟨some sampleAccount⟩).2.1
      sampleAccount rfl).2,
   (logout_clears_regardless envRevokeFails envOK ⟨none⟩).2.2 rfl⟩

/-- C2: if `login` or `register` fails at any step, the collaborator's
login handler is never invoked and the auth-store state after replaying
the trace equals its value beforehand. -/
theorem handshake_atomic (env : Env) (ld : LoginData) (rd : RegistrationData)
    (st : AuthStore) (e1 e2 : Err) :
    ((login env ld).1 = .error e1 →
      (∀ r u s, Event.cbLogin r u s ∉ (login env ld).2) ∧
      runEvents st (login env ld).2 = st) ∧
    ((register env rd).1 = .error e2 →
      (∀ r u s, Event.cbLogin r u s ∉ (register env rd).2) ∧
      runEvents st (register env rd).2 = st) := by
  constructor
  · intro h
    rcases login_shape env ld with h1 | ⟨e, h1⟩ | ⟨e, c, h1⟩ | ⟨e, c, r, h1⟩ |
        ⟨c, r, u, h1⟩ <;>
      rw [h1] at h ⊢ <;> simp_all [runEvents, applyEvent]
  · intro h
    rcases register_shape env rd with ⟨e, h1⟩ | ⟨e, c, h1⟩ | ⟨c, r, h1⟩ <;>
      rw [h1] at h ⊢ <;> simp_all [runEvents, applyEvent]

/-- Witness for C2: a failing user fetch during login and an invalid
mnemonic during register both leave the empty store untouched with no
login callback. -/
theorem handshake_atomic_witness :
    (login envUserFetchFails sampleLoginData).1 =
      Except.error (Err.networkError 1) ∧
    (∀ r u s, Event.cbLogin r u s ∉ (login envUserFetchFails sampleLoginData).2) ∧
    runEvents ⟨none⟩ (login envUserFetchFails sampleLoginData).2 = ⟨none⟩ ∧
    (register envInvalidMnemonic sampleRegisterData).1 =
      Except.error Err.invalidMnemonic ∧
    (∀ r u s,
      Event.cbLogin r u s ∉ (register envInvalidMnemonic sampleRegisterData).2) ∧
    runEvents ⟨none⟩ (register envInvalidMnemonic sampleRegisterData).2 = ⟨none⟩ :=
  ⟨rfl,
   ((handshake_atomic envUserFetchFails sampleLoginData sampleRegisterData ⟨none⟩
      (Err.networkError 1) Err.invalidMnemonic).1 rfl).1,
   ((handshake_atomic envUserFetchFails sampleLoginData sampleRegisterData ⟨none⟩
      (Err.networkError 1) Err.invalidMnemonic).1 rfl).2,
   rfl,
   ((handshake_atomic envInvalidMnemonic sampleLoginData sampleRegisterData ⟨none⟩
      (Err.networkError 1) Err.invalidMnemonic).2 rfl).1,
   ((handshake_atomic envInvalidMnemonic sampleLoginData sampleRegisterData ⟨none⟩
      (Err.networkError 1) Err.invalidMnemonic).2 rfl).2⟩

/-- C1 counterexample: with an invalid mnemonic, `register` still makes
a network call (the registration challenge request) before derivation
fails, so the claim "no network call occurs" is false for register. -/
theorem derivation_failure_aborts_cex :
    ¬ (envInvalidMnemonic.mnemonicValid sampleRegisterData.mnemonic = false →
       ∀ ev ∈ (register envInvalidMnemonic sampleRegisterData).2,
         ev.isNet = false) := by
  decide

/-- C1 (amended): if key derivation fails, `login` aborts with
`InvalidMnemonic` before any network call (empty trace); `register`
issues the registration challenge request before deriving keys, so on
derivation failure it aborts without any further network call - the
trace holds nothing but the challenge request and no submit occurs. -/
theorem derivation_failure_aborts (env : Env) (ld : LoginData)
    (rd : RegistrationData)
    (hl : env.mnemonicValid ld.mnemonic = false)
    (hr : env.mnemonicValid rd.mnemonic = false) :
    login env ld = (.error .invalidMnemonic, []) ∧
    (∀ u : Unit, (register env rd).1 ≠ .ok u) ∧
    (∀ ev ∈ (register env rd).2, ev = Event.netGetRegisterChallenge) := by
  refine ⟨by simp [login, keysFromMnemonic, hl], ?_, ?_⟩
  all_goals
    simp only [register, keysFromMnemonic, hr]
    cases hrc : env.getRegisterChallenge <;> simp

/-- Witness for C1 (amended) at an invalid mnemonic. -/
theorem derivation_failure_aborts_witness :
    login envInvalidMnemonic sampleLoginData = (.error Err.invalidMnemonic, []) ∧
    (∀ ev ∈ (register envInvalidMnemonic sampleRegisterData).2,
      ev = Event.netGetRegisterChallenge) :=
  ⟨(derivation_failure_aborts envInvalidMnemonic sampleLoginData
      sampleRegisterData rfl rfl).1,
   (derivation_failure_aborts envInvalidMnemonic sampleLoginData
      sampleRegisterData rfl rfl).2.2⟩

/-- C3: a successful `login` performs exactly, in order: challenge
request keyed by the base64url public key, submit of {challenge code,
signature, public key, encrypted device}, user fetch with the returned
bearer token, and the collaborator emit of {session result, user,
base64-encoded seed} - having first derived keys, signed the challenge
and encrypted the device metadata under the derived seed. -/
theorem login_success_steps (env : Env) (ld : LoginData) (c : String)
    (r : SessionResult) (u : UserRecord)
    (h1 : env.mnemonicValid ld.mnemonic = true)
    (h2 : env.getLoginChallenge (Data.b64url (Data.publicKey ld.mnemonic)) = .ok c)
    (h3 : env.signWorks (Data.privateKey ld.mnemonic) c = .ok ())
    (h4 : env.encryptWorks ld.device (Data.seed ld.mnemonic) = .ok ())
    (h5 : env.loginAccount (Data.challengeCode c)
        (Data.sig (Data.privateKey ld.mnemonic) (Data.challengeCode c))
        (Data.b64url (Data.publicKey ld.mnemonic))
        (Data.enc (Data.str ld.device) (Data.seed ld.mnemonic)) = .ok r)
    (h6 : env.getUser (Data.token r.token) = .ok u) :
    login env ld = (.ok (),
      [Event.netGetLoginChallenge (Data.b64url (Data.publicKey ld.mnemonic)),
       Event.netLoginAccount (Data.challengeCode c)
         (Data.sig (Data.privateKey ld.mnemonic) (Data.challengeCode c))
         (Data.b64url (Data.publicKey ld.mnemonic))
         (Data.enc (Data.str ld.device) (Data.seed ld.mnemonic)),
       Event.netGetUser (Data.token r.token),
       Event.cbLogin r u (Data.b64 (Data.seed ld.mnemonic))]) := by
  simp [login, keysFromMnemonic, bytesToBase64Url, bytesToBase64,
    signChallenge, encryptData, h1, h2, h3, h4, h5, h6]

/-- Witness for C3: a fully successful concrete login run. -/
theorem login_success_steps_witness :
    login envOK sampleLoginData = (.ok (),
      [Event.netGetLoginChallenge (Data.b64url (Data.publicKey "alpha beta gamma")),
       Event.netLoginAccount (Data.challengeCode "c1")
         (Data.sig (Data.privateKey "alpha beta gamma") (Data.challengeCode "c1"))
         (Data.b64url (Data.publicKey "alpha beta gamma"))
         (Data.enc (Data.str "my-device") (Data.seed "alpha beta gamma")),
       Event.netGetUser (Data.token "tok1"),
       Event.cbLogin ⟨"tok1", "sid1"⟩ sampleUser
         (Data.b64 (Data.seed "alpha beta gamma"))]) :=
  login_success_steps envOK sampleLoginData "c1" ⟨"tok1", "sid1"⟩ sampleUser
    rfl rfl rfl rfl rfl rfl

/-- C5: `register` mirrors login except that the challenge request
carries no public key (it transmits nothing), the submit includes the
profile payload alongside the encrypted device payload, and the user
record embedded in the register response is emitted directly - no
`getUser` fetch ever occurs in any register trace. -/
theorem register_mirrors_login (env : Env) (rd : RegistrationData)
    (c : String) (r : RegisterResult)
    (h1 : env.getRegisterChallenge = .ok c)
    (h2 : env.mnemonicValid rd.mnemonic = true)
    (h3 : env.signWorks (Data.privateKey rd.mnemonic) c = .ok ())
    (h4 : env.encryptWorks rd.device (Data.seed rd.mnemonic) = .ok ())
    (h5 : env.registerAccount (Data.challengeCode c)
        (Data.sig (Data.privateKey rd.mnemonic) (Data.challengeCode c))
        (Data.b64url (Data.publicKey rd.mnemonic))
        (Data.enc (Data.str rd.device) (Data.seed rd.mnemonic))
        rd.profile = .ok r) :
    register env rd = (.ok (),
      [Event.netGetRegisterChallenge,
       Event.netRegisterAccount (Data.challengeCode c)
         (Data.sig (Data.privateKey rd.mnemonic) (Data.challengeCode c))
         (Data.b64url (Data.publicKey rd.mnemonic))
         (Data.enc (Data.str rd.device) (Data.seed rd.mnemonic)) rd.profile,
       Event.cbLogin ⟨r.token, r.sessionId⟩ r.user
         (Data.b64 (Data.seed rd.mnemonic))]) ∧
    Event.transmitted Event.netGetRegisterChallenge = [] ∧
    (∀ env2 : Env, ∀ rd2 : RegistrationData, ∀ t,
      Event.netGetUser t ∉ (register env2 rd2).2) := by
  refine ⟨?_, rfl, ?_⟩
  · simp [register, keysFromMnemonic, bytesToBase64Url, bytesToBase64,
      signChallenge, encryptData, h1, h2, h3, h4, h5]
  · intro env2 rd2 t
    rcases register_shape env2 rd2 with ⟨e, h⟩ | ⟨e, c2, h⟩ | ⟨c2, r2, h⟩ <;>
      rw [h] <;> simp

/-- Witness for C5: a fully successful concrete register run. -/
theorem register_mirrors_login_witness :
    register envOK sampleRegisterData = (.ok (),
      [Event.netGetRegisterChallenge,
       Event.netRegisterAccount (Data.challengeCode "c2")
         (Data.sig (Data.privateKey "alpha beta gamma") (Data.challengeCode "c2"))
         (Data.b64url (Data.publicKey "alpha beta gamma"))
         (Data.enc (Data.str "my-device") (Data.seed "alpha beta gamma"))
         sampleProfile,
       Event.cbLogin ⟨"tok2", "sid2"⟩ sampleUser
         (Data.b64 (Data.seed "alpha beta gamma"))]) ∧
    (∀ t, Event.netGetUser t ∉ (register envOK sampleRegisterData).2) :=
  ⟨(register_mirrors_login envOK sampleRegisterData "c2"
      ⟨"tok2", "sid2", sampleUser⟩ rfl rfl rfl rfl rfl).1,
   (register_mirrors_login envOK sampleRegisterData "c2"
      ⟨"tok2", "sid2", sampleUser⟩ rfl rfl rfl rfl rfl).2.2 envOK
      sampleRegisterData⟩

/-- C7: when `restore` runs with an established session and a fetch
fails, the error is surfaced as the result, the logout callback never
fires, `syncData` is never invoked, and replaying the trace leaves the
existing session unchanged. -/
theorem restore_failure_frame (env : Env) (a : Account) (e : Err)
    (h : (restore env ⟨some a⟩).1 = .error e) :
    (∀ u p b, Event.cbSync u p b ∉ (restore env ⟨some a⟩).2) ∧
    Event.cbLogout ∉ (restore env ⟨some a⟩).2 ∧
    runEvents ⟨some a⟩ (restore env ⟨some a⟩).2 = ⟨some a⟩ := by
  rcases restore_shape env a with ⟨e1, h1⟩ | ⟨e1, h1⟩ | ⟨e1, h1⟩ | ⟨u, b, p, h1⟩ <;>
    rw [h1] at h ⊢ <;> simp_all [runEvents, applyEvent]

/-- Witness for C7: a failing user fetch during restore surfaces the
error and leaves the session in place. -/
theorem restore_failure_frame_witness :
    (restore envUserFetchFails ⟨some sampleAccount⟩).1 =
      Except.error (Err.networkError 1) ∧
    (∀ u p b,
      Event.cbSync u p b ∉ (restore envUserFetchFails ⟨some sampleAccount⟩).2) ∧
    Event.cbLogout ∉ (restore envUserFetchFails ⟨some sampleAccount⟩).2 ∧
    runEvents ⟨some sampleAccount⟩
      (restore envUserFetchFails ⟨some sampleAccount⟩).2 = ⟨some sampleAccount⟩ :=
  ⟨rfl,
   (restore_failure_frame envUserFetchFails sampleAccount (Err.networkError 1)
      rfl).1,
   (restore_failure_frame envUserFetchFails sampleAccount (Err.networkError 1)
      rfl).2.1,
   (restore_failure_frame envUserFetchFails sampleAccount (Err.networkError 1)
      rfl).2.2⟩

/-- C8 counterexample: a successful login transmits the challenge code
in the submit call, and challenge codes are not in the claim's
enumerated allow-list, so "only the base64url public key, the
signature, the encrypted device payload, the profile, tokens, and
session identifiers are transmitted" is false as stated. -/
theorem no_secret_transmitted_cex :
    ¬ (∀ ev ∈ (login envOK sampleLoginData).2, ∀ d ∈ ev.transmitted,
        isSecret d = false ∧ claimAllowed d = true) := by
  decide

/-- C8 (amended): in every operation and every environment, no
remote-service call ever receives the raw mnemonic, the derived private
key, or the raw symmetric seed; everything transmitted is a base64url
public key, a signature, an encrypted payload, a profile, a token, a
session identifier, or a challenge code. -/
theorem no_secret_transmitted (env : Env) (ld : LoginData)
    (rd : RegistrationData) (st : AuthStore) :
    (∀ ev ∈ (login env ld).2, ∀ d ∈ ev.transmitted,
      isSecret d = false ∧ transmittedAllowed d = true) ∧
    (∀ ev ∈ (register env rd).2, ∀ d ∈ ev.transmitted,
      isSecret d = false ∧ transmittedAllowed d = true) ∧
    (∀ ev ∈ (logout env st).2, ∀ d ∈ ev.transmitted,
      isSecret d = false ∧ transmittedAllowed d = true) ∧
    (∀ ev ∈ (restore env st).2, ∀ d ∈ ev.transmitted,
      isSecret d = false ∧ transmittedAllowed d = true) := by
  refine ⟨?_, ?_, ?_, ?_⟩
  · rcases login_shape env ld with h | ⟨e, h⟩ | ⟨e, c, h⟩ | ⟨e, c, r, h⟩ |
        ⟨c, r, u, h⟩ <;>
      rw [h] <;> simp [Event.transmitted, isSecret, transmittedAllowed]
  · rcases register_shape env rd with ⟨e, h⟩ | ⟨e, c, h⟩ | ⟨c, r, h⟩ <;>
      rw [h] <;> simp [Event.transmitted, isSecret, transmittedAllowed]
  · rcases logout_shape env st with ⟨hn, h⟩ | ⟨a, ha, h⟩ <;>
      rw [h] <;> simp [Event.transmitted, isSecret, transmittedAllowed]
  · obtain ⟨acc⟩ := st
    cases acc with
    | none =>
      intro ev hev
      simp [restore] at hev
    | some a =>
      rcases restore_shape env a with ⟨e, h⟩ | ⟨e, h⟩ | ⟨e, h⟩ | ⟨u, b, p, h⟩ <;>
        rw [h] <;> simp [Event.transmitted, isSecret, transmittedAllowed]

end MovieWebAuth
